import Mathlib

/-!
Verification of the Financial Research Agent repository.

The repository's frontend (Next.js client under `frontend/src`) is embedded
shallowly below: the pure decision logic of `CompanySearch.handleSubmit`, the
response transformation and retry loop of `services/api.ts`'s
`analyzeCompany`, the `Home` page state transitions of `app/page.tsx`, and the
`formatNumber` helper of the report renderer.  The backend aggregation core
(adapters / aggregator / report assembler) is not present in the repository
sources; where a claim is decided by it, the component is modelled from the
specification and marked as such in its doc comment.
-/

namespace FinResearch

namespace Frontend

/-- JavaScript `String.prototype.trim`: strips leading and trailing
whitespace.  (Defined on the character list so that it evaluates inside the
kernel.) -/
def jsTrim (s : String) : String :=
  ⟨((s.data.dropWhile Char.isWhitespace).reverse.dropWhile
      Char.isWhitespace).reverse⟩

/-- Outcome of one form submission in `CompanySearch.handleSubmit`
(`frontend/src/components/CompanySearch.tsx`): either the input is rejected
with an error message before any network call, or `analyzeCompany` is invoked
with the trimmed name. -/
inductive SubmitAction where
  | rejected (message : String)
  | invoke (trimmedName : String)
  deriving DecidableEq, Repr

/-- The input-validation decision of `CompanySearch.handleSubmit`: trim the
entered company name; an empty trimmed name (JavaScript falsy string) is
rejected with the message shown to the user, otherwise `analyzeCompany` is
called on the trimmed name. -/
def handleSubmit (companyName : String) : SubmitAction :=
  let trimmedName := jsTrim companyName
  if trimmedName = "" then .rejected "Please enter a company name"
  else .invoke trimmedName

/-- `company_info` block of a raw server response as read by `analyzeCompany`
(`frontend/src/services/api.ts`): each field may be absent or null. -/
structure RawCompanyInfo where
  name : Option String
  description : Option String
  sector : Option String
  industry : Option String
  deriving DecidableEq, Repr

/-- `financial_analysis` block of a raw server response: each of the four
narrative fields may be absent or null. -/
structure RawFinancialAnalysis where
  financial_health : Option String
  market_position : Option String
  growth_potential : Option String
  key_metrics_analysis : Option String
  deriving DecidableEq, Repr

/-- One news article as carried in `news_data`
(`frontend/src/services/api.ts`, `CompanyData.news_data`). -/
structure NewsItem where
  title : String
  description : String
  url : String
  publishedAt : String
  deriving DecidableEq, Repr

/-- The `{ [key: string]: any }` dictionaries (`financial_data`,
`market_data`): passed through opaquely by the transform, modelled as
association lists. -/
abbrev JsDict := List (String × String)

/-- The JSON object shape used both for the raw `/api/research` response and
for the object literal `analyzeCompany` builds from it: every top-level field
may in principle be absent (`none`). -/
structure RawResponse where
  company_info : Option RawCompanyInfo
  financial_data : Option JsDict
  market_data : Option JsDict
  financial_analysis : Option RawFinancialAnalysis
  potential_risks : Option (List String)
  news_data : Option (List NewsItem)
  deriving DecidableEq, Repr

/-- JavaScript `x || d` for an optional string `x`: an absent/null value and
the empty string are falsy, any other string is kept. -/
def jsOrStr (x : Option String) (d : String) : String :=
  match x with
  | some s => if s = "" then d else s
  | none => d

/-- The `transformedData` object literal built by `analyzeCompany` from the
server response (`frontend/src/services/api.ts` lines 74–93): every field is
populated, with `?.` optional chaining and `||` defaults exactly as in the
source (objects and arrays are truthy in JavaScript even when empty, so
`x || {}` and `x || []` only replace an absent/null value). -/
def transformedData (resp : RawResponse) (companyName : String) : RawResponse :=
  { company_info := some {
      name := some (jsOrStr (resp.company_info.bind RawCompanyInfo.name) companyName)
      description := some (jsOrStr (resp.company_info.bind RawCompanyInfo.description) "")
      sector := some (jsOrStr (resp.company_info.bind RawCompanyInfo.sector) "")
      industry := some (jsOrStr (resp.company_info.bind RawCompanyInfo.industry) "") }
    financial_data := some (resp.financial_data.getD [])
    market_data := some (resp.market_data.getD [])
    financial_analysis := some {
      financial_health :=
        some (jsOrStr (resp.financial_analysis.bind RawFinancialAnalysis.financial_health) "")
      market_position :=
        some (jsOrStr (resp.financial_analysis.bind RawFinancialAnalysis.market_position) "")
      growth_potential :=
        some (jsOrStr (resp.financial_analysis.bind RawFinancialAnalysis.growth_potential) "")
      key_metrics_analysis :=
        some (jsOrStr (resp.financial_analysis.bind RawFinancialAnalysis.key_metrics_analysis) "") }
    potential_risks := some (resp.potential_risks.getD [])
    news_data := some (resp.news_data.getD []) }

/-- A `RawResponse`-shaped object has every field of the `CompanyData`
interface defined: the six top-level fields are present, and within
`company_info` and `financial_analysis` all four string fields are present. -/
def allFieldsDefined (r : RawResponse) : Bool :=
  (match r.company_info with
   | some ci =>
     ci.name.isSome && ci.description.isSome && ci.sector.isSome && ci.industry.isSome
   | none => false) &&
  r.financial_data.isSome &&
  r.market_data.isSome &&
  (match r.financial_analysis with
   | some fa =>
     fa.financial_health.isSome && fa.market_position.isSome &&
     fa.growth_potential.isSome && fa.key_metrics_analysis.isSome
   | none => false) &&
  r.potential_risks.isSome &&
  r.news_data.isSome

/-- `company_info?.name` read off a `RawResponse`-shaped object. -/
def respName (r : RawResponse) : Option String :=
  r.company_info.bind RawCompanyInfo.name

/-- `error.response?.data?.detail` of an axios error: the backend sends either
a plain string or an object with an optional `message` field. -/
inductive Detail where
  | str (s : String)
  | obj (message : Option String)
  deriving DecidableEq, Repr

/-- `detail?.message`: defined only when `detail` is an object with a present
`message` field (a string has no `message` property). -/
def detailMessage : Option Detail → Option String
  | some (.obj m) => m
  | some (.str _) => none
  | none => none

/-- JavaScript truthiness of a `detail` value: objects are always truthy,
strings are truthy unless empty. -/
def truthyDetail : Detail → Bool
  | .str s => s != ""
  | .obj _ => true

/-- String coercion applied when a `detail` value ends up as the argument of
`new Error(...)`: a string stays itself, an object coerces to
`"[object Object]"`. -/
def stringifyDetail : Detail → String
  | .str s => s
  | .obj _ => "[object Object]"

/-- The fields of an `AxiosError` that `analyzeCompany` inspects: the error
`code`, the always-present `message` string, and the optional
`response.data.detail` payload (`none` models absence at any level of
`error.response?.data?.detail`). -/
structure AxiosErr where
  code : Option String
  message : String
  detail : Option Detail
  deriving DecidableEq, Repr

/-- Substring containment, modelling JavaScript `message.includes('timeout')`. -/
def strContainsSub (s pat : String) : Bool :=
  (List.range (s.length + 1)).any
    (fun i => (s.toList.drop i).take pat.length = pat.toList)

/-- `isTimeout` classification in `analyzeCompany`'s catch block:
`error.code === 'ECONNABORTED' || error.message.includes('timeout')`. -/
def isTimeout (e : AxiosErr) : Bool :=
  e.code = some "ECONNABORTED" || strContainsSub e.message "timeout"

/-- The tail of the `errorMessage` chain:
`error.message || 'Failed to analyze company'`. -/
def errTail (e : AxiosErr) : String :=
  if e.message = "" then "Failed to analyze company" else e.message

/-- The middle of the `errorMessage` chain: `error.response?.data?.detail`
itself, kept when truthy (strings coerced as by `new Error`). -/
def errFromDetail (e : AxiosErr) : String :=
  match e.detail with
  | some d => if truthyDetail d then stringifyDetail d else errTail e
  | none => errTail e

/-- The message of the `Error` thrown by `analyzeCompany` for a non-timeout
axios failure, following the source's JavaScript `||` chain
`detail?.message || detail || error.message || 'Failed to analyze company'`
(each step skipped when falsy; a non-string winner is string-coerced by
`new Error`). -/
def errorMessage (e : AxiosErr) : String :=
  match detailMessage e.detail with
  | some m => if m = "" then errFromDetail e else m
  | none => errFromDetail e

/-- Outcome of one `api.post('/api/research', ...)` attempt: a parsed response
body, an axios failure, or some other thrown error (rethrown unchanged by the
catch block) carrying its message. -/
inductive AttemptOutcome where
  | ok (resp : RawResponse)
  | axiosFailure (e : AxiosErr)
  | otherFailure (message : String)
  deriving DecidableEq, Repr

/-- A thrown JavaScript `Error`, reduced to the message it carries. -/
structure JsError where
  message : String
  deriving DecidableEq, Repr

/-- `maxRetries` constant of `analyzeCompany`. -/
def maxRetries : Nat := 3

/-- The `executeWithRetry` closure of `analyzeCompany`: attempt number
`retryCount` is issued (`attempts` gives the outcome of each numbered
attempt); a successful response is transformed, a timeout with
`retryCount < maxRetries - 1` increments the counter and retries, any other
axios failure throws `new Error(errorMessage)`, and a non-axios error is
rethrown. -/
def executeWithRetry (companyName : String) (attempts : Nat → AttemptOutcome)
    (retryCount : Nat) : Except JsError RawResponse :=
  match attempts retryCount with
  | .ok resp => .ok (transformedData resp companyName)
  | .axiosFailure e =>
      if h : isTimeout e = true ∧ retryCount < maxRetries - 1 then
        executeWithRetry companyName attempts (retryCount + 1)
      else .error ⟨errorMessage e⟩
  | .otherFailure msg => .error ⟨msg⟩
termination_by maxRetries - retryCount
decreasing_by simp only [maxRetries] at *; omega

/-- Body of the analyze request: `{ company_name: companyName }`. -/
structure AnalyzeRequestBody where
  company_name : String
  deriving DecidableEq, Repr

/-- The POST request `analyzeCompany` issues on every attempt. -/
structure AnalyzeRequest where
  path : String
  body : AnalyzeRequestBody
  deriving DecidableEq, Repr

/-- The request built by `analyzeCompany`:
`api.post('/api/research', { company_name: companyName })`. -/
def analyzeRequest (companyName : String) : AnalyzeRequest :=
  ⟨"/api/research", ⟨companyName⟩⟩

/-- `analyzeCompany`: builds the request, runs `executeWithRetry` from
`retryCount = 0` against the server's behaviour (`server` gives the outcome of
each numbered attempt of a given request). -/
def analyzeCompany (server : AnalyzeRequest → Nat → AttemptOutcome)
    (companyName : String) : Except JsError RawResponse :=
  executeWithRetry companyName (server (analyzeRequest companyName)) 0

/-- The error message as DESCRIBED rather than as implemented: the first
*defined* (present) of `response.data.detail.message`, `response.data.detail`
(string-coerced), the axios `error.message`, or the fallback.  This follows
the description's words, for comparison against `errorMessage`, which follows
the source's `||` chain; the two differ on defined-but-empty strings. -/
def claimedMessage (e : AxiosErr) : String :=
  match detailMessage e.detail with
  | some m => m
  | none =>
    match e.detail with
    | some d => stringifyDetail d
    | none => e.message

/-- The state held by the `Home` page component (`frontend/src/app/page.tsx`):
the `companyData` and `error` `useState` slots.  The report payload is opaque
for the state machine, so it is a type parameter. -/
structure HomeState (Data : Type) where
  companyData : Option Data
  error : Option String
  deriving DecidableEq, Repr

/-- `handleResult` of the `Home` page: `setError(null); setCompanyData(data)`. -/
def handleResult {Data : Type} (_s : HomeState Data) (data : Data) : HomeState Data :=
  { companyData := some data, error := none }

/-- `handleError` of the `Home` page:
`setError(errorMessage); setCompanyData(null)`. -/
def handleError {Data : Type} (_s : HomeState Data) (errorMessage : String) :
    HomeState Data :=
  { companyData := none, error := some errorMessage }

/-- A JavaScript `string | number` value as taken by `formatNumber` in the
report renderer.  The number representation is a type parameter (JavaScript
numbers are IEEE doubles; only their opaque flow through the function
matters here). -/
inductive JsNumOrStr (Num : Type) where
  | num (x : Num)
  | str (s : String)
  deriving DecidableEq, Repr

/-- Termination measure for `formatNumber`: a string argument recurses at most
once, into a number argument. -/
def JsNumOrStr.size {Num : Type} : JsNumOrStr Num → Nat
  | .num _ => 0
  | .str _ => 1

/-- `formatNumber` of the report renderer: a number is formatted with
`Intl.NumberFormat('en-US', { maximumFractionDigits: 2 })` (passed in as
`format`); the string `'N/A'` is returned unchanged; any other string is fed
through `parseFloat` (passed in as `parse`, total — it yields a number, `NaN`
included, for every string) and the function recurses on the resulting
number. -/
def formatNumber {Num : Type} (format : Num → String) (parse : String → Num) :
    JsNumOrStr Num → String
  | .num x => format x
  | .str s => if s = "N/A" then "N/A" else formatNumber format parse (.num (parse s))
termination_by v => v.size
decreasing_by simp [JsNumOrStr.size]

/-- Number of fraction digits displayed by a formatted decimal string: the
digits after the final decimal point, if any. -/
def fracDigits (s : String) : Nat :=
  if s.toList.contains '.' then
    ((s.toList.reverse.takeWhile (fun c => c ≠ '.'))).length
  else 0

end Frontend

namespace Backend

/-- Error taxonomy of the aggregation core (spec §7). -/
inductive ErrorKind where
  | invalidInput
  | notFound
  | timeout
  | upstreamError
  | malformedResponse
  deriving DecidableEq, Repr

/-- `ProviderResult<T>` (spec §3): the outcome of one adapter call, either a
success carrying the value or a failure carrying a reason and detail. -/
inductive ProviderResult (T : Type) where
  | success (value : T)
  | failure (reason : ErrorKind) (detail : String)
  deriving DecidableEq, Repr

/-- Whether a provider result is a failure. -/
def ProviderResult.isFailure {T : Type} : ProviderResult T → Bool
  | .success _ => false
  | .failure _ _ => true

/-- Modelled from the spec: the market adapter's internal `MarketSnapshot`
(spec §3) — the repository's backend sources are absent, so this follows the
spec's data model: each field is optional, with absence represented
explicitly (`none`), not by a sentinel string.  Field names follow the
`FinancialData` interface of `frontend/src/types/company.ts`. -/
structure MarketData where
  revenue : Option String
  gross_profit : Option String
  operating_margin : Option String
  pe_ratio : Option String
  market_cap : Option String
  price : Option String
  change_percent : Option String
  volume : Option String
  week_52_high : Option String
  week_52_low : Option String
  deriving DecidableEq, Repr

/-- `FinancialData` of `frontend/src/types/company.ts`: the assembled market
block, every field a plain string (real data or the `"N/A"` marker). -/
structure FinancialData where
  revenue : String
  gross_profit : String
  operating_margin : String
  pe_ratio : String
  market_cap : String
  price : String
  change_percent : String
  volume : String
  week_52_high : String
  week_52_low : String
  deriving DecidableEq, Repr

/-- `CompanyInfo` of `frontend/src/types/company.ts`. -/
structure CompanyInfo where
  name : String
  description : String
  sector : String
  industry : String
  deriving DecidableEq, Repr

/-- `FinancialAnalysis` of `frontend/src/types/company.ts`: the four
narrative fields. -/
structure FinancialAnalysis where
  financial_health : String
  market_position : String
  growth_potential : String
  key_metrics_analysis : String
  deriving DecidableEq, Repr

/-- `NewsItem` of `frontend/src/types/company.ts`. -/
structure NewsItem where
  title : String
  description : String
  url : String
  publishedAt : String
  deriving DecidableEq, Repr

/-- Modelled from the spec: `NarrativeAnalysis` (spec §3) — four free-text
fields plus an ordered list of risk statements, as produced by the narrative
adapter. -/
structure NarrativeAnalysis where
  financial_health : String
  market_position : String
  growth_potential : String
  key_metrics_analysis : String
  risks : List String
  deriving DecidableEq, Repr

/-- `CompanyResponse` of `frontend/src/types/company.ts`: the assembled
report returned by the backend. -/
structure CompanyResponse where
  company_info : CompanyInfo
  financial_data : FinancialData
  financial_analysis : FinancialAnalysis
  potential_risks : List String
  news_data : List NewsItem
  sources : List String
  deriving DecidableEq, Repr

/-- Conversion of an optional internal market field to its display form at
the assembly boundary (spec §4.3, §9): a present value is kept, an absent one
becomes the literal marker `"N/A"`. -/
def naOr (x : Option String) : String :=
  x.getD "N/A"

/-- Modelled from the spec: the Report Assembler's market block (spec §4.3) —
a failed market adapter yields `"N/A"` in every field; a successful one yields
each present field's value and `"N/A"` for each absent field. -/
def assembleMarket (marketResult : ProviderResult MarketData) : FinancialData :=
  match marketResult with
  | .success m =>
    { revenue := naOr m.revenue
      gross_profit := naOr m.gross_profit
      operating_margin := naOr m.operating_margin
      pe_ratio := naOr m.pe_ratio
      market_cap := naOr m.market_cap
      price := naOr m.price
      change_percent := naOr m.change_percent
      volume := naOr m.volume
      week_52_high := naOr m.week_52_high
      week_52_low := naOr m.week_52_low }
  | .failure _ _ =>
    { revenue := "N/A", gross_profit := "N/A", operating_margin := "N/A"
      pe_ratio := "N/A", market_cap := "N/A", price := "N/A"
      change_percent := "N/A", volume := "N/A", week_52_high := "N/A"
      week_52_low := "N/A" }

/-- Modelled from the spec: the Report Assembler's narrative block
(spec §4.3) — a failed narrative adapter yields the empty string in each of
the four narrative fields. -/
def assembleNarrative (narrativeResult : ProviderResult NarrativeAnalysis) :
    FinancialAnalysis :=
  match narrativeResult with
  | .success n =>
    { financial_health := n.financial_health
      market_position := n.market_position
      growth_potential := n.growth_potential
      key_metrics_analysis := n.key_metrics_analysis }
  | .failure _ _ =>
    { financial_health := "", market_position := ""
      growth_potential := "", key_metrics_analysis := "" }

/-- Modelled from the spec: the risk list of the report (spec §4.3) — the
narrative adapter's risk list on success, the empty sequence on failure. -/
def assembleRisks (narrativeResult : ProviderResult NarrativeAnalysis) :
    List String :=
  match narrativeResult with
  | .success n => n.risks
  | .failure _ _ => []

/-- Modelled from the spec: the news list of the report (spec §4.3) — the
news adapter's article sequence on success (possibly empty, which is valid
data), the empty sequence on failure. -/
def assembleNews (newsResult : ProviderResult (List NewsItem)) : List NewsItem :=
  match newsResult with
  | .success items => items
  | .failure _ _ => []

/-- Modelled from the spec: the provenance/diagnostics `sources` field
(spec §7) — records which providers contributed, so the caller can tell which
sections are incomplete. -/
def assembleSources (marketResult : ProviderResult MarketData)
    (narrativeResult : ProviderResult NarrativeAnalysis)
    (newsResult : ProviderResult (List NewsItem)) : List String :=
  (if marketResult.isFailure then [] else ["market_data"]) ++
  (if narrativeResult.isFailure then [] else ["narrative"]) ++
  (if newsResult.isFailure then [] else ["news"])

/-- Modelled from the spec: the Report Assembler
`assemble(identity, marketResult, narrativeResult, newsResult)` (spec §4.3) —
a pure, total function substituting the documented default for every missing
or failed field: numeric/market fields → `"N/A"`, narrative fields → the
empty string, risk and news lists → the empty sequence.  The backend sources
are absent from the repository; the output shape is the `CompanyResponse`
interface of `frontend/src/types/company.ts`. -/
def assemble (identity : CompanyInfo) (marketResult : ProviderResult MarketData)
    (narrativeResult : ProviderResult NarrativeAnalysis)
    (newsResult : ProviderResult (List NewsItem)) : CompanyResponse :=
  { company_info := identity
    financial_data := assembleMarket marketResult
    financial_analysis := assembleNarrative narrativeResult
    potential_risks := assembleRisks narrativeResult
    news_data := assembleNews newsResult
    sources := assembleSources marketResult narrativeResult newsResult }

/-- Request-level errors of the Aggregator (spec §4.2, §7): invalid input, or
the aggregate failure carrying the three underlying (reason, detail) pairs. -/
inductive AnalyzeError where
  | invalidInput
  | allProvidersFailed (market narrative news : ErrorKind × String)
  deriving DecidableEq, Repr

/-- Modelled from the spec: `Aggregator.analyze(companyName)` (spec §4.2) —
the backend sources are absent from the repository.  The three adapter calls
are modelled as functions from the company name to their `ProviderResult`.
An input that is empty after trimming is rejected with `InvalidInput` before
any adapter is invoked; if all three adapters fail, `AllProvidersFailed` is
raised with the three underlying reasons and no partial report is produced;
otherwise the Report Assembler merges the results into the report, with the
queried name as the identity fallback. -/
def analyze (marketAdapter : String → ProviderResult MarketData)
    (narrativeAdapter : String → ProviderResult NarrativeAnalysis)
    (newsAdapter : String → ProviderResult (List NewsItem))
    (companyName : String) : Except AnalyzeError CompanyResponse :=
  if Frontend.jsTrim companyName = "" then .error .invalidInput
  else
    match marketAdapter (Frontend.jsTrim companyName),
        narrativeAdapter (Frontend.jsTrim companyName),
        newsAdapter (Frontend.jsTrim companyName) with
    | .failure k1 d1, .failure k2 d2, .failure k3 d3 =>
        .error (.allProvidersFailed (k1, d1) (k2, d2) (k3, d3))
    | mkt, nar, news =>
        .ok (assemble ⟨Frontend.jsTrim companyName, "", "", ""⟩ mkt nar news)

end Backend

/-! ## Helper lemmas -/

theorem allFieldsDefined_transformedData (resp : Frontend.RawResponse)
    (companyName : String) :
    Frontend.allFieldsDefined (Frontend.transformedData resp companyName) = true := by
  simp [Frontend.allFieldsDefined, Frontend.transformedData]

theorem executeWithRetry_ok_inv (companyName : String)
    (attempts : Nat → Frontend.AttemptOutcome) :
    ∀ fuel rc r, Frontend.maxRetries - rc ≤ fuel →
      Frontend.executeWithRetry companyName attempts rc = .ok r →
      ∃ resp, r = Frontend.transformedData resp companyName := by
  intro fuel
  induction fuel with
  | zero =>
    intro rc r hle h
    rw [Frontend.executeWithRetry] at h
    split at h
    · exact ⟨_, by injection h with h; exact h.symm⟩
    · split at h
      · rename_i hc
        exact absurd hc.2 (by simp only [Frontend.maxRetries] at hle ⊢; omega)
      · exact absurd h (by simp)
    · exact absurd h (by simp)
  | succ n ih =>
    intro rc r hle h
    rw [Frontend.executeWithRetry] at h
    split at h
    · exact ⟨_, by injection h with h; exact h.symm⟩
    · split at h
      · exact ih (rc + 1) r (by simp only [Frontend.maxRetries] at *; omega) h
      · exact absurd h (by simp)
    · exact absurd h (by simp)

theorem respName_transformedData (resp : Frontend.RawResponse)
    (companyName : String) :
    Frontend.respName (Frontend.transformedData resp companyName) =
      some (Frontend.jsOrStr (Frontend.respName resp) companyName) := by
  simp [Frontend.respName, Frontend.transformedData]

theorem executeWithRetry_agree (companyName : String)
    (a b : Nat → Frontend.AttemptOutcome)
    (hag : ∀ i, i < Frontend.maxRetries → a i = b i) :
    ∀ fuel rc, Frontend.maxRetries - rc ≤ fuel → rc < Frontend.maxRetries →
      Frontend.executeWithRetry companyName a rc =
        Frontend.executeWithRetry companyName b rc := by
  intro fuel
  induction fuel with
  | zero =>
    intro rc h1 h2
    exact absurd h2 (by simp only [Frontend.maxRetries] at h1 ⊢; omega)
  | succ n ih =>
    intro rc h1 h2
    have hab : a rc = b rc := hag rc h2
    cases hB : b rc with
    | ok resp =>
      rw [Frontend.executeWithRetry, hab, hB]
      conv_rhs => rw [Frontend.executeWithRetry, hB]
    | axiosFailure e =>
      rw [Frontend.executeWithRetry, hab, hB]
      conv_rhs => rw [Frontend.executeWithRetry, hB]
      simp only []
      by_cases hc : Frontend.isTimeout e = true ∧ rc < Frontend.maxRetries - 1
      · rw [dif_pos hc, dif_pos hc]
        exact ih (rc + 1) (by simp only [Frontend.maxRetries] at h1 ⊢; omega)
          (by simp only [Frontend.maxRetries] at hc ⊢; omega)
      · rw [dif_neg hc, dif_neg hc]
    | otherFailure msg =>
      rw [Frontend.executeWithRetry, hab, hB]
      conv_rhs => rw [Frontend.executeWithRetry, hB]

/-! ## Claims -/

/-- C1: submitting the search form with a company name whose trimmed form is
empty reports the input error and returns without invoking `analyzeCompany`
(no outbound call); with a non-empty trimmed form, `analyzeCompany` is
invoked with the trimmed name. -/
theorem c1_empty_input_rejected_nonempty_invoked (companyName : String) :
    (Frontend.jsTrim companyName = "" →
      Frontend.handleSubmit companyName =
        .rejected "Please enter a company name") ∧
    (Frontend.jsTrim companyName ≠ "" →
      Frontend.handleSubmit companyName = .invoke (Frontend.jsTrim companyName)) := by
  constructor <;> intro h <;> simp [Frontend.handleSubmit, h]

/-- Witness for C1 at the whitespace-only input `"   "` and the non-empty
input `" Tesla "`. -/
theorem c1_witness :
    Frontend.handleSubmit "   " = .rejected "Please enter a company name" ∧
    Frontend.handleSubmit " Tesla " = .invoke "Tesla" := by
  constructor
  · exact (c1_empty_input_rejected_nonempty_invoked "   ").1 (by decide)
  · have h := (c1_empty_input_rejected_nonempty_invoked " Tesla ").2 (by decide)
    rwa [show Frontend.jsTrim " Tesla " = "Tesla" from by decide] at h

/-- C2: every value returned by `analyzeCompany` has every field of the
`CompanyData` shape defined — `company_info` with all four string fields,
`financial_data`, `market_data`, `financial_analysis` with all four string
fields, `potential_risks`, and `news_data` — whatever the server response
looked like. -/
theorem c2_output_shape_total
    (server : Frontend.AnalyzeRequest → Nat → Frontend.AttemptOutcome)
    (companyName : String) (r : Frontend.RawResponse)
    (h : Frontend.analyzeCompany server companyName = .ok r) :
    Frontend.allFieldsDefined r = true := by
  obtain ⟨resp, rfl⟩ :=
    executeWithRetry_ok_inv companyName (server (Frontend.analyzeRequest companyName))
      Frontend.maxRetries 0 r (by simp) h
  exact allFieldsDefined_transformedData resp companyName

/-- Witness for C2: a server answering the first attempt with an entirely
empty response body still yields a fully defined output. -/
theorem c2_witness :
    Frontend.allFieldsDefined
      (Frontend.transformedData ⟨none, none, none, none, none, none⟩ "Tesla") = true :=
  c2_output_shape_total (fun _ _ => .ok ⟨none, none, none, none, none, none⟩)
    "Tesla" (Frontend.transformedData ⟨none, none, none, none, none, none⟩ "Tesla")
    (by simp [Frontend.analyzeCompany, Frontend.executeWithRetry])

/-- C5: a server response whose `news_data` is the (present) empty sequence
is passed through by the transform as the empty sequence — valid data, not an
error and not a placeholder. -/
theorem c5_empty_news_passthrough (resp : Frontend.RawResponse)
    (companyName : String) (h : resp.news_data = some []) :
    (Frontend.transformedData resp companyName).news_data = some [] := by
  simp [Frontend.transformedData, h]

/-- Witness for C5 at a concrete response carrying an empty news list. -/
theorem c5_witness :
    (Frontend.transformedData ⟨none, none, none, none, none, some []⟩
      "Tesla").news_data = some [] :=
  c5_empty_news_passthrough ⟨none, none, none, none, none, some []⟩ "Tesla" rfl

/-- C7: the transformed report's `company_info.name` equals the response's
name when that is present and non-empty, and the queried company name
otherwise; it is never empty when the queried name is non-empty. -/
theorem c7_name_present_or_query_fallback (resp : Frontend.RawResponse)
    (companyName : String) :
    (∀ s, Frontend.respName resp = some s → s ≠ "" →
      Frontend.respName (Frontend.transformedData resp companyName) = some s) ∧
    ((Frontend.respName resp = none ∨ Frontend.respName resp = some "") →
      Frontend.respName (Frontend.transformedData resp companyName) =
        some companyName) ∧
    (companyName ≠ "" →
      ∀ t, Frontend.respName (Frontend.transformedData resp companyName) = some t →
        t ≠ "") := by
  refine ⟨?_, ?_, ?_⟩
  · intro s hs hne
    rw [respName_transformedData, hs]
    simp [Frontend.jsOrStr, hne]
  · intro hcase
    rw [respName_transformedData]
    rcases hcase with h | h <;> rw [h] <;> simp [Frontend.jsOrStr]
  · intro hname t ht
    rw [respName_transformedData] at ht
    injection ht with ht
    subst ht
    cases hn : Frontend.respName resp with
    | none => simpa [Frontend.jsOrStr] using hname
    | some s =>
      simp only [Frontend.jsOrStr]
      by_cases hs : s = "" <;> simp [hs, hname]

/-- Witness for C7: a present non-empty response name is kept; an absent one
falls back to the non-empty queried name. -/
theorem c7_witness :
    Frontend.respName
      (Frontend.transformedData
        ⟨some ⟨some "Tesla, Inc.", none, none, none⟩, none, none, none, none, none⟩
        "Tesla") = some "Tesla, Inc." ∧
    Frontend.respName
      (Frontend.transformedData ⟨none, none, none, none, none, none⟩ "Tesla") =
      some "Tesla" := by
  constructor
  · exact (c7_name_present_or_query_fallback
      ⟨some ⟨some "Tesla, Inc.", none, none, none⟩, none, none, none, none, none⟩
      "Tesla").1 "Tesla, Inc." rfl (by decide)
  · exact (c7_name_present_or_query_fallback
      ⟨none, none, none, none, none, none⟩ "Tesla").2.1 (Or.inl rfl)

/-- C3: for every request in which a provider failed or a field is missing,
the assembled output substitutes the documented default — each numeric/market
field carries the literal marker `"N/A"`, each of the four narrative fields
is the empty string, and the risk list and news list are each the empty
sequence.  (Report Assembler modelled from the spec; the client transform in
`api.ts` applies the same narrative/list defaults, stated in the last two
conjuncts.) -/
theorem c3_documented_defaults_for_missing_fields
    (identity : Backend.CompanyInfo)
    (mr : Backend.ProviderResult Backend.MarketData)
    (nr : Backend.ProviderResult Backend.NarrativeAnalysis)
    (wr : Backend.ProviderResult (List Backend.NewsItem))
    (resp : Frontend.RawResponse) (companyName : String) :
    (mr.isFailure = true →
      (Backend.assemble identity mr nr wr).financial_data =
        ⟨"N/A", "N/A", "N/A", "N/A", "N/A", "N/A", "N/A", "N/A", "N/A", "N/A"⟩) ∧
    (∀ m, mr = .success m →
      (m.revenue = none →
        (Backend.assemble identity mr nr wr).financial_data.revenue = "N/A") ∧
      (m.gross_profit = none →
        (Backend.assemble identity mr nr wr).financial_data.gross_profit = "N/A") ∧
      (m.operating_margin = none →
        (Backend.assemble identity mr nr wr).financial_data.operating_margin = "N/A") ∧
      (m.pe_ratio = none →
        (Backend.assemble identity mr nr wr).financial_data.pe_ratio = "N/A") ∧
      (m.market_cap = none →
        (Backend.assemble identity mr nr wr).financial_data.market_cap = "N/A") ∧
      (m.price = none →
        (Backend.assemble identity mr nr wr).financial_data.price = "N/A") ∧
      (m.change_percent = none →
        (Backend.assemble identity mr nr wr).financial_data.change_percent = "N/A") ∧
      (m.volume = none →
        (Backend.assemble identity mr nr wr).financial_data.volume = "N/A") ∧
      (m.week_52_high = none →
        (Backend.assemble identity mr nr wr).financial_data.week_52_high = "N/A") ∧
      (m.week_52_low = none →
        (Backend.assemble identity mr nr wr).financial_data.week_52_low = "N/A")) ∧
    (nr.isFailure = true →
      (Backend.assemble identity mr nr wr).financial_analysis = ⟨"", "", "", ""⟩ ∧
      (Backend.assemble identity mr nr wr).potential_risks = []) ∧
    (wr.isFailure = true →
      (Backend.assemble identity mr nr wr).news_data = []) ∧
    (resp.financial_analysis = none →
      (Frontend.transformedData resp companyName).financial_analysis =
        some ⟨some "", some "", some "", some ""⟩) ∧
    (resp.potential_risks = none →
      (Frontend.transformedData resp companyName).potential_risks = some []) ∧
    (resp.news_data = none →
      (Frontend.transformedData resp companyName).news_data = some []) := by
  refine ⟨?_, ?_, ?_, ?_, ?_, ?_, ?_⟩
  · intro h
    cases mr with
    | success m => simp [Backend.ProviderResult.isFailure] at h
    | failure k d => simp [Backend.assemble, Backend.assembleMarket]
  · rintro m rfl
    refine ⟨?_, ?_, ?_, ?_, ?_, ?_, ?_, ?_, ?_, ?_⟩ <;>
      (intro h; simp [Backend.assemble, Backend.assembleMarket, Backend.naOr, h])
  · intro h
    cases nr with
    | success n => simp [Backend.ProviderResult.isFailure] at h
    | failure k d =>
      exact ⟨by simp [Backend.assemble, Backend.assembleNarrative],
        by simp [Backend.assemble, Backend.assembleRisks]⟩
  · intro h
    cases wr with
    | success v => simp [Backend.ProviderResult.isFailure] at h
    | failure k d => simp [Backend.assemble, Backend.assembleNews]
  · intro h
    simp [Frontend.transformedData, h, Frontend.jsOrStr]
  · intro h
    simp [Frontend.transformedData, h]
  · intro h
    simp [Frontend.transformedData, h]

/-- Witness for C3 at concrete failed providers and a concrete success whose
`price` field is absent. -/
theorem c3_witness :
    (Backend.assemble ⟨"Tesla", "", "", ""⟩ (.failure .timeout "slow")
        (.failure .upstreamError "llm down") (.failure .upstreamError "news down")
        ).financial_data =
      ⟨"N/A", "N/A", "N/A", "N/A", "N/A", "N/A", "N/A", "N/A", "N/A", "N/A"⟩ ∧
    (Backend.assemble ⟨"Tesla", "", "", ""⟩
        (.success ⟨some "1", none, none, none, none, none, none, none, none, none⟩)
        (.failure .upstreamError "llm down") (.failure .upstreamError "news down")
        ).financial_data.price = "N/A" ∧
    (Backend.assemble ⟨"Tesla", "", "", ""⟩ (.failure .timeout "slow")
        (.failure .upstreamError "llm down") (.failure .upstreamError "news down")
        ).financial_analysis = ⟨"", "", "", ""⟩ ∧
    (Backend.assemble ⟨"Tesla", "", "", ""⟩ (.failure .timeout "slow")
        (.failure .upstreamError "llm down") (.failure .upstreamError "news down")
        ).potential_risks = [] ∧
    (Backend.assemble ⟨"Tesla", "", "", ""⟩ (.failure .timeout "slow")
        (.failure .upstreamError "llm down") (.failure .upstreamError "news down")
        ).news_data = [] ∧
    (Frontend.transformedData ⟨none, none, none, none, none, none⟩
        "Tesla").financial_analysis = some ⟨some "", some "", some "", some ""⟩ := by
  have hF := c3_documented_defaults_for_missing_fields ⟨"Tesla", "", "", ""⟩
    (.failure .timeout "slow") (.failure .upstreamError "llm down")
    (.failure .upstreamError "news down") ⟨none, none, none, none, none, none⟩
    "Tesla"
  have hS := c3_documented_defaults_for_missing_fields ⟨"Tesla", "", "", ""⟩
    (.success ⟨some "1", none, none, none, none, none, none, none, none, none⟩)
    (.failure .upstreamError "llm down") (.failure .upstreamError "news down")
    ⟨none, none, none, none, none, none⟩ "Tesla"
  exact ⟨hF.1 rfl, (hS.2.1 _ rfl).2.2.2.2.2.1 rfl, (hF.2.2.1 rfl).1,
    (hF.2.2.1 rfl).2, hF.2.2.2.1 rfl, hF.2.2.2.2.1 rfl⟩

/-- C4: if all three provider adapters fail for a valid request, `analyze`
raises `AllProvidersFailed` carrying the three underlying reasons and returns
no partial report; a request-level error arises only in this all-fail case or
when the input is invalid. -/
theorem c4_all_providers_failed_aggregate
    (mA : String → Backend.ProviderResult Backend.MarketData)
    (nA : String → Backend.ProviderResult Backend.NarrativeAnalysis)
    (wA : String → Backend.ProviderResult (List Backend.NewsItem))
    (companyName : String) :
    (∀ k1 d1 k2 d2 k3 d3,
      Frontend.jsTrim companyName ≠ "" →
      mA (Frontend.jsTrim companyName) = .failure k1 d1 →
      nA (Frontend.jsTrim companyName) = .failure k2 d2 →
      wA (Frontend.jsTrim companyName) = .failure k3 d3 →
      Backend.analyze mA nA wA companyName =
        .error (.allProvidersFailed (k1, d1) (k2, d2) (k3, d3))) ∧
    (∀ e, Backend.analyze mA nA wA companyName = .error e →
      Frontend.jsTrim companyName = "" ∨
      ((mA (Frontend.jsTrim companyName)).isFailure = true ∧
       (nA (Frontend.jsTrim companyName)).isFailure = true ∧
       (wA (Frontend.jsTrim companyName)).isFailure = true)) := by
  constructor
  · intro k1 d1 k2 d2 k3 d3 hne hm hn hw
    rw [Backend.analyze, if_neg hne, hm, hn, hw]
  · intro e he
    by_cases htrim : Frontend.jsTrim companyName = ""
    · exact Or.inl htrim
    · right
      rw [Backend.analyze, if_neg htrim] at he
      cases hm : mA (Frontend.jsTrim companyName) with
      | success v => rw [hm] at he; simp at he
      | failure k1 d1 =>
        cases hn : nA (Frontend.jsTrim companyName) with
        | success v => rw [hm, hn] at he; simp at he
        | failure k2 d2 =>
          cases hw : wA (Frontend.jsTrim companyName) with
          | success v => rw [hm, hn, hw] at he; simp at he
          | failure k3 d3 =>
            simp [Backend.ProviderResult.isFailure]

/-- Witness for C4: three concretely failing adapters on the valid input
`"Tesla"` yield exactly the aggregate error with the three reasons, and the
error implies all three failed. -/
theorem c4_witness :
    Backend.analyze (fun _ => .failure .notFound "no symbol")
      (fun _ => .failure .upstreamError "llm down")
      (fun _ => .failure .upstreamError "news down") "Tesla" =
      .error (.allProvidersFailed (.notFound, "no symbol")
        (.upstreamError, "llm down") (.upstreamError, "news down")) ∧
    ((fun _ : String => (.failure .notFound "no symbol" :
        Backend.ProviderResult Backend.MarketData)) (Frontend.jsTrim "Tesla")
      ).isFailure = true := by
  constructor
  · exact (c4_all_providers_failed_aggregate (fun _ => .failure .notFound "no symbol")
      (fun _ => .failure .upstreamError "llm down")
      (fun _ => .failure .upstreamError "news down") "Tesla").1
      .notFound "no symbol" .upstreamError "llm down" .upstreamError "news down"
      (by decide) rfl rfl rfl
  · have h := (c4_all_providers_failed_aggregate (fun _ => .failure .notFound "no symbol")
      (fun _ => .failure .upstreamError "llm down")
      (fun _ => .failure .upstreamError "news down") "Tesla").2
      (.allProvidersFailed (.notFound, "no symbol")
        (.upstreamError, "llm down") (.upstreamError, "news down"))
      ((c4_all_providers_failed_aggregate (fun _ => .failure .notFound "no symbol")
        (fun _ => .failure .upstreamError "llm down")
        (fun _ => .failure .upstreamError "news down") "Tesla").1
        .notFound "no symbol" .upstreamError "llm down" .upstreamError "news down"
        (by decide) rfl rfl rfl)
    rcases h with h | h
    · exact absurd h (by decide)
    · exact h.1

/-- C6: `analyzeCompany` issues the analyze request with body exactly
`{ company_name: <the given name> }`; on success it returns a value of the
`CompanyData` report shape (the fully populated transform of some response);
on failure it throws a structured error carrying a message string. -/
theorem c6_request_body_and_result_shape
    (server : Frontend.AnalyzeRequest → Nat → Frontend.AttemptOutcome)
    (companyName : String) :
    (Frontend.analyzeRequest companyName).body = ⟨companyName⟩ ∧
    (∀ r, Frontend.analyzeCompany server companyName = .ok r →
      ∃ resp, r = Frontend.transformedData resp companyName) ∧
    (∀ e, Frontend.analyzeCompany server companyName = .error e →
      ∃ msg : String, e = ⟨msg⟩) := by
  refine ⟨rfl, ?_, ?_⟩
  · intro r h
    exact executeWithRetry_ok_inv companyName
      (server (Frontend.analyzeRequest companyName)) Frontend.maxRetries 0 r
      (by simp) h
  · intro e h
    exact ⟨e.message, rfl⟩

/-- Witness for C6 against a server that answers the first attempt with an
empty body. -/
theorem c6_witness :
    (Frontend.analyzeRequest "Tesla").body = ⟨"Tesla"⟩ ∧
    (∃ resp, Frontend.transformedData ⟨none, none, none, none, none, none⟩ "Tesla" =
      Frontend.transformedData resp "Tesla") := by
  have h := c6_request_body_and_result_shape
    (fun _ _ => .ok ⟨none, none, none, none, none, none⟩) "Tesla"
  refine ⟨h.1, h.2.1 _ ?_⟩
  simp [Frontend.analyzeCompany, Frontend.executeWithRetry]

/-- C8: the renderer's `formatNumber` is total and tolerates placeholders —
the string `"N/A"` is returned unchanged, a numeric input is handed to the
2-fraction-digit formatter, and every other string terminates through one
recursion step on `parseFloat`'s (total) numeric result. -/
theorem c8_formatNumber_total_and_tolerant {Num : Type}
    (format : Num → String) (parse : String → Num)
    (hfmt : ∀ x, Frontend.fracDigits (format x) ≤ 2) :
    Frontend.formatNumber format parse (.str "N/A") = "N/A" ∧
    (∀ x, Frontend.formatNumber format parse (.num x) = format x ∧
      Frontend.fracDigits (Frontend.formatNumber format parse (.num x)) ≤ 2) ∧
    (∀ s, s ≠ "N/A" → Frontend.formatNumber format parse (.str s) =
      format (parse s)) := by
  have hnum : ∀ x, Frontend.formatNumber format parse (.num x) = format x := by
    intro x; simp [Frontend.formatNumber]
  refine ⟨?_, ?_, ?_⟩
  · simp [Frontend.formatNumber]
  · intro x; exact ⟨hnum x, by rw [hnum x]; exact hfmt x⟩
  · intro s hs; simp [Frontend.formatNumber, hs]

/-- Witness for C8 with a concrete zero-fraction-digit formatter and a
constant parser. -/
theorem c8_witness :
    Frontend.formatNumber (fun _ : Nat => "0") (fun _ => (0 : Nat))
      (.str "N/A") = "N/A" ∧
    Frontend.formatNumber (fun _ : Nat => "0") (fun _ => (0 : Nat))
      (.num 5) = "0" ∧
    Frontend.formatNumber (fun _ : Nat => "0") (fun _ => (0 : Nat))
      (.str "12345.678") = "0" := by
  have h := c8_formatNumber_total_and_tolerant (fun _ : Nat => "0")
    (fun _ => (0 : Nat)) (fun _ => by show Frontend.fracDigits "0" ≤ 2; decide)
  exact ⟨h.1, (h.2.1 5).1, h.2.2 "12345.678" (by decide)⟩

/-- C9 counterexample: the thrown message is NOT always the first *defined*
of `detail.message`, `detail`, the axios `error.message`, and the fallback —
for an axios failure with no `detail` and a defined-but-empty `message`, the
first defined candidate is the empty `error.message`, yet the code's `||`
chain skips it (empty strings are falsy) and throws the fallback
`'Failed to analyze company'`. -/
theorem c9_counterexample :
    Frontend.executeWithRetry "Tesla"
      (fun _ => .axiosFailure ⟨none, "", none⟩) 0 =
      .error ⟨"Failed to analyze company"⟩ ∧
    Frontend.claimedMessage ⟨none, "", none⟩ = "" ∧
    (⟨"Failed to analyze company"⟩ : Frontend.JsError) ≠ ⟨""⟩ := by
  have ht : Frontend.isTimeout ⟨none, "", none⟩ = false := by decide
  refine ⟨?_, rfl, by decide⟩
  rw [Frontend.executeWithRetry]
  simp only []
  rw [dif_neg (by simp [ht])]
  rfl

/-- C9 (amended): `analyzeCompany` makes at most 3 total request attempts
(its result depends only on the outcomes of attempts 0–2); it retries only
when the failure is a timeout (`ECONNABORTED` code or a message containing
`'timeout'`) and fewer than 2 retries have occurred; every non-timeout axios
failure propagates immediately as an `Error` whose message is the first
*truthy* (non-empty, objects string-coerced) of `response.data.detail.message`,
`response.data.detail`, the axios `error.message`, or the fallback
`'Failed to analyze company'`; and the third attempt's failure propagates
even when it is a timeout. -/
theorem c9_amended_retry_policy (companyName : String)
    (attempts attempts2 : Nat → Frontend.AttemptOutcome) :
    ((∀ i, i < 3 → attempts i = attempts2 i) →
      Frontend.executeWithRetry companyName attempts 0 =
        Frontend.executeWithRetry companyName attempts2 0) ∧
    (∀ rc e, attempts rc = .axiosFailure e → Frontend.isTimeout e = false →
      Frontend.executeWithRetry companyName attempts rc =
        .error ⟨Frontend.errorMessage e⟩) ∧
    (∀ rc e, attempts rc = .axiosFailure e → Frontend.isTimeout e = true →
      rc < 2 →
      Frontend.executeWithRetry companyName attempts rc =
        Frontend.executeWithRetry companyName attempts (rc + 1)) ∧
    (∀ e, attempts 2 = .axiosFailure e →
      Frontend.executeWithRetry companyName attempts 2 =
        .error ⟨Frontend.errorMessage e⟩) := by
  refine ⟨?_, ?_, ?_, ?_⟩
  · intro hag
    exact executeWithRetry_agree companyName attempts attempts2 hag
      Frontend.maxRetries 0 (by simp) (by simp [Frontend.maxRetries])
  · intro rc e hA hT
    rw [Frontend.executeWithRetry, hA]
    simp only []
    rw [dif_neg (by simp [hT])]
  · intro rc e hA hT hrc
    rw [Frontend.executeWithRetry, hA]
    simp only []
    rw [dif_pos ⟨hT, by simp only [Frontend.maxRetries]; omega⟩]
  · intro e hA
    rw [Frontend.executeWithRetry, hA]
    simp only []
    rw [dif_neg (by simp [Frontend.maxRetries])]

/-- Witness for C9 (amended) at a concrete non-timeout failure, a concrete
timeout failure, and two servers agreeing on the first three attempts. -/
theorem c9_witness :
    Frontend.executeWithRetry "Tesla"
      (fun _ => .axiosFailure ⟨none, "boom", none⟩) 0 = .error ⟨"boom"⟩ ∧
    Frontend.executeWithRetry "Tesla"
      (fun _ => .axiosFailure ⟨some "ECONNABORTED", "t", none⟩) 0 =
      Frontend.executeWithRetry "Tesla"
        (fun _ => .axiosFailure ⟨some "ECONNABORTED", "t", none⟩) 1 ∧
    Frontend.executeWithRetry "Tesla"
      (fun _ => .axiosFailure ⟨some "ECONNABORTED", "t", none⟩) 2 =
      .error ⟨"t"⟩ ∧
    Frontend.executeWithRetry "Tesla"
      (fun _ => .axiosFailure ⟨none, "boom", none⟩) 0 =
      Frontend.executeWithRetry "Tesla"
        (fun i => if i < 3 then .axiosFailure ⟨none, "boom", none⟩
          else .otherFailure "ignored") 0 := by
  have h1 := c9_amended_retry_policy "Tesla"
    (fun _ => .axiosFailure ⟨none, "boom", none⟩)
    (fun i => if i < 3 then .axiosFailure ⟨none, "boom", none⟩
      else .otherFailure "ignored")
  have h2 := c9_amended_retry_policy "Tesla"
    (fun _ => .axiosFailure ⟨some "ECONNABORTED", "t", none⟩)
    (fun _ => .axiosFailure ⟨some "ECONNABORTED", "t", none⟩)
  exact ⟨h1.2.1 0 ⟨none, "boom", none⟩ rfl (by decide),
    h2.2.2.1 0 ⟨some "ECONNABORTED", "t", none⟩ rfl (by decide) (by decide),
    h2.2.2.2 ⟨some "ECONNABORTED", "t", none⟩ rfl,
    h1.1 (fun i hi => by simp [hi])⟩

/-- C10: after every `handleResult` or `handleError` transition of the `Home`
page, at most one of the error message and the company report is non-null:
`handleResult` sets the report and clears the error, `handleError` sets the
error and clears the report. -/
theorem c10_error_and_report_exclusive {Data : Type} (s : Frontend.HomeState Data)
    (data : Data) (msg : String) :
    ((Frontend.handleResult s data).error = none ∧
      (Frontend.handleResult s data).companyData = some data) ∧
    ((Frontend.handleError s msg).companyData = none ∧
      (Frontend.handleError s msg).error = some msg) := by
  simp [Frontend.handleResult, Frontend.handleError]

end FinResearch
